import Mathlib

/-
Verification of the Manifest State Engine (passport manifest application).

The definitions below are a shallow embedding of the TypeScript source:
  - src/App.tsx          : history store, derived-attribute calculator,
                           duplicate detector, batch ingestion, field edits,
                           delete/clear, date-range filter
  - src/types.ts         : the PassportData record
  - the table and detail-editor components : the two field-edit entry points

Modelling conventions:
  - JavaScript strings that may be `undefined` are modelled as plain strings
    with "" for `undefined`; every use site in the source only tests these
    values for truthiness (where "" and `undefined` agree) or spreads them,
    so the two encodings are observationally equal for everything proved here.
  - `isDuplicate` (boolean or `undefined`) is a Bool with `false` for
    `undefined`, again matching every truthiness test in the source.
  - JS `Date` values are modelled at local timezone = UTC as epoch-day
    counts (proleptic Gregorian); `new Date(y, m, d)` normalisation of
    out-of-range months/days is implemented exactly (month arithmetic plus
    linear day offset), including the 0..99 => 1900..1999 year rule and
    the ECMAScript TimeClip (time values beyond 8.64e15 ms, i.e. 1e8
    days, give an Invalid Date).  parseInt carries JS's no-radix rules,
    hex 0x/0X prefix included.  An invalid date (NaN) is `none`; NaN
    comparisons are false, as in JS.
  - The reference-identity no-op guard of setPassportsWithHistory is
    modelled with structural equality.  Structurally distinct snapshots are
    never reference-identical, so on every input appearing in a theorem
    below with a distinctness hypothesis the two guards agree.
-/

set_option maxRecDepth 10000

namespace Namelist

/-- Status of one manifest record (src/types.ts). -/
inductive RecStatus
  | pending
  | processing
  | completed
  | error
deriving DecidableEq, Repr

/-- Passenger type union 'ADULT' | 'CHILD' | 'INFANT'. -/
inductive PType
  | ADULT
  | CHILD
  | INFANT
deriving DecidableEq, Repr

/-- The string stored in the passengerType field for each PType value. -/
def ptStr : PType → String
  | .ADULT => "ADULT"
  | .CHILD => "CHILD"
  | .INFANT => "INFANT"

/-- One passenger record (src/types.ts PassportData).  Optional string
fields use "" for undefined; isDuplicate uses false for undefined. -/
structure PassportData where
  id : String
  passengerType : String
  title : String
  firstName : String
  lastName : String
  passportNumber : String
  nationality : String
  gender : String
  dateOfBirth : String
  issueDate : String
  expiryDate : String
  fileName : String
  status : RecStatus
  errorMessage : String
  isDuplicate : Bool
deriving DecidableEq, Repr

/-- A record with every string field empty; used for placeholders, whose
source object literal leaves the remaining fields undefined. -/
def blankRecord : PassportData :=
  { id := "", passengerType := "", title := "", firstName := "", lastName := ""
    passportNumber := "", nationality := "", gender := "", dateOfBirth := ""
    issueDate := "", expiryDate := "", fileName := "", status := .pending
    errorMessage := "", isDuplicate := false }

/-- A civil (proleptic Gregorian) calendar date; month is 1-based. -/
structure CivilDate where
  year : Int
  month : Int
  day : Int
deriving DecidableEq, Repr

/-- JS String.prototype.toUpperCase on one character (ASCII range; every
string compared in the source is ASCII). -/
def jsToUpperChar (c : Char) : Char :=
  if 97 ≤ c.toNat ∧ c.toNat ≤ 122 then Char.ofNat (c.toNat - 32) else c

/-- JS String.prototype.toUpperCase. -/
def jsToUpper (s : String) : String := ⟨s.data.map jsToUpperChar⟩

/-- JS String.prototype.trim: strip leading and trailing whitespace. -/
def jsTrim (s : String) : String :=
  ⟨((s.data.dropWhile Char.isWhitespace).reverse.dropWhile Char.isWhitespace).reverse⟩

/-- Worker for jsSplit: split a character list at every '/'. -/
def splitOnSlash : List Char → List Char → List String
  | [], acc => [⟨acc.reverse⟩]
  | c :: cs, acc =>
    if c = '/' then ⟨acc.reverse⟩ :: splitOnSlash cs []
    else splitOnSlash cs (c :: acc)

/-- JS String.prototype.split('/'). -/
def jsSplit (s : String) : List String := splitOnSlash s.data []

/-- Numeric value of a list of decimal digit characters. -/
def digitsVal (s : List Char) : Nat :=
  s.foldl (fun n c => n * 10 + (c.toNat - 48)) 0

/-- Is the character a hexadecimal digit. -/
def isHexDigitChar (c : Char) : Bool :=
  decide (('0' ≤ c ∧ c ≤ '9') ∨ ('a' ≤ c ∧ c ≤ 'f') ∨ ('A' ≤ c ∧ c ≤ 'F'))

/-- Value of one hexadecimal digit character. -/
def hexDigitVal (c : Char) : Nat :=
  if '0' ≤ c ∧ c ≤ '9' then c.toNat - 48
  else if 'a' ≤ c ∧ c ≤ 'f' then c.toNat - 87
  else c.toNat - 55

/-- Numeric value of a list of hexadecimal digit characters. -/
def hexVal (s : List Char) : Nat :=
  s.foldl (fun n c => n * 16 + hexDigitVal c) 0

/-- JS parseInt(s) with no radix argument: skip leading whitespace,
optional sign, then either a 0x/0X prefix followed by the longest run of
hex digits (radix 16), or the longest run of decimal digits (radix 10);
none models NaN (no digits after the consumed prefix). -/
def jsParseInt (s : String) : Option Int :=
  let t := s.data.dropWhile Char.isWhitespace
  let sgn : Int := if t.headD ' ' = '-' then -1 else 1
  let rest := if t.headD ' ' = '-' ∨ t.headD ' ' = '+' then t.tail else t
  match rest with
  | '0' :: x :: r =>
    if x = 'x' ∨ x = 'X' then
      let hs := r.takeWhile isHexDigitChar
      if hs.isEmpty then none else some (sgn * (hexVal hs : Int))
    else
      let ds := rest.takeWhile Char.isDigit
      if ds.isEmpty then none else some (sgn * (digitsVal ds : Int))
  | _ =>
    let ds := rest.takeWhile Char.isDigit
    if ds.isEmpty then none else some (sgn * (digitsVal ds : Int))

/-- Epoch-day number (days since 1970-01-01) of a civil date; month must be
in 1..12, the day may be any integer (it enters linearly, which is exactly
how JS MakeDay treats day overflow). -/
def daysFromCivil (y m d : Int) : Int :=
  let yy := if m ≤ 2 then y - 1 else y
  let era := yy.fdiv 400
  let yoe := yy - era * 400
  let mp := (m + 9).emod 12
  let doy := (153 * mp + 2).fdiv 5 + d - 1
  let doe := yoe * 365 + yoe.fdiv 4 - yoe.fdiv 100 + doy
  era * 146097 + doe - 719468

/-- Civil date of an epoch-day number (inverse of daysFromCivil). -/
def civilFromDays (z0 : Int) : CivilDate :=
  let z := z0 + 719468
  let era := z.fdiv 146097
  let doe := z - era * 146097
  let yoe := (doe - doe.fdiv 1460 + doe.fdiv 36524 - doe.fdiv 146096).fdiv 365
  let y := yoe + era * 400
  let doy := doe - (365 * yoe + yoe.fdiv 4 - yoe.fdiv 100)
  let mp := (5 * doy + 2).fdiv 153
  let d := doy - (153 * mp + 2).fdiv 5 + 1
  let m := if mp < 10 then mp + 3 else mp - 9
  { year := if m ≤ 2 then y + 1 else y, month := m, day := d }

/-- Epoch-day of JS new Date(y, monthIdx, d) at local midnight: years 0..99
map to 1900..1999, out-of-range month indices roll the year, out-of-range
days roll the month; finally the ECMAScript TimeClip makes the Date
invalid (none) when its time value exceeds 8.64e15 ms from the epoch in
either direction, i.e. when the day count exceeds 1e8. -/
def jsMakeDay (y monthIdx d : Int) : Option Int :=
  let yr := if 0 ≤ y ∧ y ≤ 99 then y + 1900 else y
  let ym := yr + monthIdx.fdiv 12
  let mn := monthIdx.emod 12
  let day := daysFromCivil ym (mn + 1) d
  if day < -100000000 ∨ 100000000 < day then none else some day

/-- Derived Attribute Calculator (src/App.tsx deriveAttributes), with the
current date passed explicitly.  The two fall-through arms are the NaN
paths: an unparseable component, or an Invalid Date from the time clip,
makes age NaN, every comparison on it false, hence ADULT and the MR/MS
branch, exactly as the JS executes. -/
def deriveAttributes (today : CivilDate) (dob gender : String) : String × PType :=
  if dob = "" then ("", .ADULT)
  else
    let parts := jsSplit dob
    if parts.length ≠ 3 then ("", .ADULT)
    else
      let isMale := jsToUpper gender = "MALE"
      match jsParseInt (parts.getD 0 ""), jsParseInt (parts.getD 1 ""),
            jsParseInt (parts.getD 2 "") with
      | some pd, some pm, some py =>
        match jsMakeDay py (pm - 1) pd with
        | some bday =>
          let b := civilFromDays bday
          let m := (today.month - 1) - (b.month - 1)
          let age : Int :=
            (today.year - b.year) -
              (if m < 0 ∨ (m = 0 ∧ today.day < b.day) then 1 else 0)
          let pType :=
            if age < 2 then PType.INFANT
            else if age < 12 then PType.CHILD
            else PType.ADULT
          let title :=
            if age < 2 then (if isMale then "MSTR" else "MISS")
            else if isMale then "MR"
            else if age > 30 then "MRS"
            else "MS"
          (title, pType)
        | none =>
          ((if isMale then "MR" else "MS"), .ADULT)
      | _, _, _ =>
        ((if isMale then "MR" else "MS"), .ADULT)

/-- Undo/redo container (src/App.tsx HistoryState). -/
structure HistoryState where
  past : List (List PassportData)
  present : List PassportData
  future : List (List PassportData)
deriving DecidableEq, Repr

/-- Array.prototype.slice(-50): keep the last 50 entries. -/
def takeLast50 (l : List (List PassportData)) : List (List PassportData) :=
  l.drop (l.length - 50)

/-- setPassportsWithHistory (src/App.tsx lines 93-103) applied to a
computed next snapshot; every call site uses the default
shouldClearFuture = true.  The identity guard is structural here (see the
header note on reference identity). -/
def commitSnapshot (h : HistoryState) (next : List PassportData) : HistoryState :=
  if next = h.present then h
  else { past := takeLast50 (h.past ++ [h.present]), present := next, future := [] }

/-- undo (src/App.tsx lines 105-116). -/
def undo (h : HistoryState) : HistoryState :=
  match h.past.getLast? with
  | none => h
  | some previous =>
    { past := h.past.dropLast, present := previous, future := h.present :: h.future }

/-- redo (src/App.tsx lines 118-129); note: no depth trim on this push. -/
def redo (h : HistoryState) : HistoryState :=
  match h.future with
  | [] => h
  | next :: rest =>
    { past := h.past ++ [h.present], present := next, future := rest }

/-- The per-element predicate inside checkIsDuplicate's list.some: other
record, completed, and same passport number or same full name after trim
and upper-case.  Truthiness of an optional string is nonemptiness. -/
def dupMatch (pn fn ln cid : String) (p : PassportData) : Bool :=
  decide (p.id ≠ cid) && decide (p.status = .completed) &&
    ((decide (pn ≠ "") && decide (p.passportNumber ≠ "") &&
        decide (jsToUpper (jsTrim pn) = jsToUpper (jsTrim p.passportNumber))) ||
     (decide (fn ≠ "") && decide (ln ≠ "") &&
        decide (p.firstName ≠ "") && decide (p.lastName ≠ "") &&
        decide (jsToUpper (jsTrim fn) = jsToUpper (jsTrim p.firstName)) &&
        decide (jsToUpper (jsTrim ln) = jsToUpper (jsTrim p.lastName))))

/-- Duplicate Detector (src/App.tsx checkIsDuplicate).  Both call sites
read only passportNumber, firstName and lastName from the candidate, so
those are the parameters here. -/
def checkIsDuplicate (pn fn ln cid : String) (l : List PassportData) : Bool :=
  if pn = "" ∧ (fn = "" ∨ ln = "") then false
  else l.any (dupMatch pn fn ln cid)

/-- The ten string-valued record fields reachable from the two editing
surfaces; updatePassport is only ever called with one of these. -/
inductive Field
  | passengerType
  | title
  | firstName
  | lastName
  | passportNumber
  | nationality
  | gender
  | dateOfBirth
  | issueDate
  | expiryDate
deriving DecidableEq, Repr

/-- Functional update of a single record field ({ ...p, [field]: value }). -/
def setField (p : PassportData) (f : Field) (v : String) : PassportData :=
  match f with
  | .passengerType => { p with passengerType := v }
  | .title => { p with title := v }
  | .firstName => { p with firstName := v }
  | .lastName => { p with lastName := v }
  | .passportNumber => { p with passportNumber := v }
  | .nationality => { p with nationality := v }
  | .gender => { p with gender := v }
  | .dateOfBirth => { p with dateOfBirth := v }
  | .issueDate => { p with issueDate := v }
  | .expiryDate => { p with expiryDate := v }

/-- The map body of updatePassport: apply the edit to the matching record
and, when date of birth or gender changed, re-derive title and type. -/
def updateStep (today : CivilDate) (i : String) (f : Field) (v : String)
    (p : PassportData) : PassportData :=
  if p.id = i then
    let updated := setField p f v
    if f = .dateOfBirth ∨ f = .gender then
      let derived := deriveAttributes today updated.dateOfBirth updated.gender
      { updated with passengerType := ptStr derived.2, title := derived.1 }
    else updated
  else p

/-- The tail of updatePassport's updater: find the edited record in the
already field-updated list and, when it is completed, rewrite the
isDuplicate flag of every record carrying the edited id. -/
def writeFlag (i : String) (updatedList : List PassportData) : List PassportData :=
  match updatedList.find? (fun p => p.id = i) with
  | some t =>
    if t.status = .completed then
      updatedList.map (fun p =>
        if p.id = i then
          { p with isDuplicate :=
              checkIsDuplicate t.passportNumber t.firstName t.lastName i updatedList }
        else p)
    else updatedList
  | none => updatedList

/-- The snapshot computed by updatePassport (src/App.tsx lines 224-248)
before it is committed: after the field update, the edited record's
isDuplicate flag is recomputed only when that record is completed. -/
def updateList (today : CivilDate) (i : String) (f : Field) (v : String)
    (l : List PassportData) : List PassportData :=
  writeFlag i (l.map (updateStep today i f v))

/-- updatePassport: compute the new snapshot and commit it. -/
def updatePassport (today : CivilDate) (i : String) (f : Field) (v : String)
    (h : HistoryState) : HistoryState :=
  commitSnapshot h (updateList today i f v h.present)

/-- deletePassport (src/App.tsx lines 250-253). -/
def deletePassport (i : String) (h : HistoryState) : HistoryState :=
  commitSnapshot h (h.present.filter (fun p => p.id ≠ i))

/-- The onClear handler: setPassportsWithHistory([]). -/
def clearManifest (h : HistoryState) : HistoryState :=
  commitSnapshot h []

/-- Desktop table edit of firstName: the input handler upper-cases the DOM
value before calling onUpdate (PassportTable). -/
def tableEditFirstName (today : CivilDate) (i v : String) (h : HistoryState) :
    HistoryState :=
  updatePassport today i .firstName (jsToUpper v) h

/-- Desktop table edit of lastName, also upper-cased at the call site. -/
def tableEditLastName (today : CivilDate) (i v : String) (h : HistoryState) :
    HistoryState :=
  updatePassport today i .lastName (jsToUpper v) h

/-- DetailEditor edit: the mobile editor passes the DOM value through
unchanged for every field (DetailEditor onChange handlers). -/
def editorEditField (today : CivilDate) (i : String) (f : Field) (v : String)
    (h : HistoryState) : HistoryState :=
  updatePassport today i f v h

/-- The partial record returned by the recognition service; its object
literal always carries these nine keys (possibly undefined, i.e. ""). -/
structure Details where
  title : String
  firstName : String
  lastName : String
  passportNumber : String
  nationality : String
  gender : String
  dateOfBirth : String
  issueDate : String
  expiryDate : String
deriving DecidableEq, Repr

/-- Outcome of one extraction call: field values, or a failure message. -/
inductive ExtractOutcome
  | ok (d : Details)
  | fail (msg : String)
deriving DecidableEq, Repr

/-- One file handed to the batch pipeline: its name, the id assigned to
its placeholder, and the outcome its extraction call will produce. -/
structure FileInput where
  name : String
  newId : String
  outcome : ExtractOutcome
deriving DecidableEq, Repr

/-- The placeholder record created synchronously per file. -/
def mkPlaceholder (f : FileInput) : PassportData :=
  { blankRecord with id := f.newId, fileName := f.name, status := .processing }

/-- The success branch of the per-file loop (src/App.tsx lines 200-207):
derive attributes, merge all service fields (the spread overwrites every
one of the nine keys), recompute the new record's duplicate flag against
the pre-update snapshot, set status completed — and replace present
directly, leaving past and future untouched. -/
def applyExtractSuccess (today : CivilDate) (d : Details) (pid : String)
    (h : HistoryState) : HistoryState :=
  let derived := deriveAttributes today d.dateOfBirth d.gender
  let finalTitle := if d.title = "" then derived.1 else d.title
  let dup := checkIsDuplicate d.passportNumber d.firstName d.lastName pid h.present
  { h with present := h.present.map (fun p =>
      if p.id = pid then
        { p with
            title := finalTitle
            firstName := d.firstName
            lastName := d.lastName
            passportNumber := d.passportNumber
            nationality := d.nationality
            gender := d.gender
            dateOfBirth := d.dateOfBirth
            issueDate := d.issueDate
            expiryDate := d.expiryDate
            passengerType := ptStr derived.2
            status := .completed
            isDuplicate := dup }
      else p) }

/-- The failure branch of the per-file loop (src/App.tsx lines 208-217):
mark the placeholder as error with the failure's message, again replacing
present directly with past and future untouched. -/
def applyExtractError (pid msg : String) (h : HistoryState) : HistoryState :=
  { h with present := h.present.map (fun p =>
      if p.id = pid then { p with status := .error, errorMessage := msg } else p) }

/-- One iteration of the sequential per-file loop. -/
def processOne (today : CivilDate) (f : FileInput) (h : HistoryState) : HistoryState :=
  match f.outcome with
  | .ok d => applyExtractSuccess today d f.newId h
  | .fail m => applyExtractError f.newId m h

/-- processFiles (src/App.tsx lines 166-222): empty input is a silent
no-op; otherwise one committed history entry prepends all placeholders,
then the files are processed strictly in order.  The returned Nat is the
processedCount after the batch (count0 when the input is empty, since the
early return leaves the counter untouched). -/
def processFiles (today : CivilDate) (files : List FileInput)
    (h : HistoryState) (count0 : Nat) : HistoryState × Nat :=
  if files.isEmpty then (h, count0)
  else
    let placeholders := files.map mkPlaceholder
    let h1 := commitSnapshot h (placeholders ++ h.present)
    (files.foldl (fun acc f => processOne today f acc) h1, files.length)

/-- The three date fields offered by the filter UI. -/
inductive DateField
  | dateOfBirth
  | issueDate
  | expiryDate
deriving DecidableEq, Repr

/-- Record projection p[filters.field]. -/
def getDateField (p : PassportData) : DateField → String
  | .dateOfBirth => p.dateOfBirth
  | .issueDate => p.issueDate
  | .expiryDate => p.expiryDate

/-- Filter criteria (src/App.tsx FilterState).  The bound values come from
HTML date inputs, which produce either "" (modelled none) or a well-formed
calendar date. -/
structure FilterState where
  field : DateField
  startDate : Option CivilDate
  endDate : Option CivilDate
deriving DecidableEq, Repr

/-- Epoch milliseconds of a civil date at local midnight (local = UTC). -/
def civilMillis (c : CivilDate) : Int :=
  daysFromCivil c.year c.month c.day * 86400000

/-- The filter predicate of filteredAndSortedPassports (src/App.tsx lines
265-278).  pMillis is none when a component fails parseInt or the
constructed Date is invalid under the time clip; both NaN comparisons are
then false, so neither bound can reject the record. -/
def keepRecord (fl : FilterState) (p : PassportData) : Bool :=
  let dateVal := getDateField p fl.field
  if dateVal = "" then false
  else
    let parts := jsSplit dateVal
    if parts.length ≠ 3 then false
    else
      let pMillis : Option Int :=
        match jsParseInt (parts.getD 0 ""), jsParseInt (parts.getD 1 ""),
              jsParseInt (parts.getD 2 "") with
        | some pd, some pm, some py =>
          (jsMakeDay py (pm - 1) pd).map (fun day => day * 86400000)
        | _, _, _ => none
      let ltStart : Bool :=
        match pMillis, fl.startDate with
        | some t, some s => decide (t < civilMillis s)
        | _, _ => false
      if ltStart then false
      else
        let gtEnd : Bool :=
          match pMillis, fl.endDate with
          | some t, some e => decide (t > civilMillis e + 86399000)
          | _, _ => false
        if gtEnd then false else true

/-- The filtering stage of the Sort & Filter Engine: active only when at
least one bound is set. -/
def applyFilter (fl : FilterState) (l : List PassportData) : List PassportData :=
  if fl.startDate.isSome ∨ fl.endDate.isSome then l.filter (keepRecord fl) else l

/-- Modelled from the spec: age in whole years as of the current date —
the year difference, decremented by one when the current month/day
precedes the birth month/day (spec section 4.2).  Used as the
specification side of the derived-attribute classification claim. -/
def specWholeYearAge (today b : CivilDate) : Int :=
  today.year - b.year -
    (if today.month < b.month ∨ (today.month = b.month ∧ today.day < b.day)
     then 1 else 0)

/-- A history transition that goes through the commit path: the prior
present is pushed onto the trimmed past and the future is cleared. -/
def CommitStep (h h' : HistoryState) : Prop :=
  h'.past = takeLast50 (h.past ++ [h.present]) ∧ h'.future = []

/-- A history transition that bypasses the commit path: past and future
are both left untouched. -/
def BypassStep (h h' : HistoryState) : Prop :=
  h'.past = h.past ∧ h'.future = h.future

/-- Bounded-depth invariant of the history store. -/
def HistoryInv (h : HistoryState) : Prop :=
  h.past.length + h.future.length ≤ 50

/-- A one-record snapshot tagged by a number, for the depth scenario. -/
def mkSnap (i : Nat) : List PassportData :=
  [{ blankRecord with passportNumber := toString i }]

/-- The history produced by committing the 51 distinct snapshots
mkSnap 1 .. mkSnap 51 onto an initial history whose present is mkSnap 0. -/
def scenario51 : HistoryState :=
  (List.range 51).foldl (fun h i => commitSnapshot h (mkSnap (i + 1)))
    { past := [], present := mkSnap 0, future := [] }

lemma commitSnapshot_present (h : HistoryState) (next : List PassportData) :
    (commitSnapshot h next).present = next := by
  unfold commitSnapshot
  split
  · next heq => exact heq.symm
  · rfl

lemma takeLast50_length_le (l : List (List PassportData)) :
    (takeLast50 l).length ≤ 50 := by
  unfold takeLast50
  rw [List.length_drop]
  omega

lemma takeLast50_concat_getLast (l : List (List PassportData))
    (x : List PassportData) : (takeLast50 (l ++ [x])).getLast? = some x := by
  unfold takeLast50
  rw [List.length_append, List.drop_append_of_le_length (by simp)]
  exact List.getLast?_concat _

lemma commitSnapshot_commitStep (h : HistoryState) (next : List PassportData)
    (hne : next ≠ h.present) : CommitStep h (commitSnapshot h next) := by
  unfold commitSnapshot CommitStep
  rw [if_neg hne]
  exact ⟨rfl, rfl⟩

/-- A fixed current date used by the concrete witnesses below. -/
def wToday : CivilDate := ⟨2025, 10, 11⟩

/-- A completed record used in several concrete scenarios. -/
def wRecA : PassportData :=
  { blankRecord with
      id := "A", firstName := "ALICE", lastName := "SMITH"
      passportNumber := "P1", status := .completed }

/-- A second completed record with distinct fields. -/
def wRecB : PassportData :=
  { blankRecord with
      id := "B", firstName := "BOB", lastName := "JONES"
      passportNumber := "P2", status := .completed }

/-- A completed record whose passport number matches wRecB's after trim
and upper-case. -/
def wRecC : PassportData :=
  { blankRecord with
      id := "C", firstName := "CARA", lastName := "LEE"
      passportNumber := " p2 ", status := .completed }

/-- An in-flight placeholder record used by the ingestion counterexample. -/
def wPlaceholder : PassportData :=
  { blankRecord with id := "id1", fileName := "f.jpg", status := .processing }

/-- A concrete extraction result used by the ingestion counterexample. -/
def wDetailsA : Details := ⟨"", "ALICE", "SMITH", "P1", "", "FEMALE", "", "", ""⟩

/-- A history with one in-flight placeholder and a pending redo snapshot. -/
def wH2 : HistoryState := ⟨[], [wPlaceholder], [[wRecB]]⟩

/-- C1.  For every history state and every snapshot S distinct from the
current present, commit(S) followed by undo() restores the pre-commit
present exactly (structural equality), and a subsequent redo() restores S
exactly. -/
theorem commit_undo_redo_roundtrip (h : HistoryState) (S : List PassportData)
    (hne : S ≠ h.present) :
    (undo (commitSnapshot h S)).present = h.present ∧
    (redo (undo (commitSnapshot h S))).present = S := by
  unfold commitSnapshot
  rw [if_neg hne]
  have hlast := takeLast50_concat_getLast h.past h.present
  constructor
  · unfold undo
    rw [hlast]
  · unfold undo
    rw [hlast]
    rfl

/-- C1 witness at a concrete history and snapshot. -/
theorem commit_undo_redo_roundtrip_witness :
    (undo (commitSnapshot ⟨[], [wRecA], []⟩ [wRecB])).present = [wRecA] ∧
    (redo (undo (commitSnapshot ⟨[], [wRecA], []⟩ [wRecB]))).present = [wRecB] :=
  commit_undo_redo_roundtrip ⟨[], [wRecA], []⟩ [wRecB] (by decide)

/-- C3.  The past stack never exceeds 50 entries: the bounded-depth
invariant is preserved by commit, undo and redo; when the past holds
exactly 50 snapshots a further commit drops precisely the oldest entry;
and committing 51 distinct snapshots leaves exactly 50 in past, with the
oldest (mkSnap 0) evicted and mkSnap 1 now the oldest retained. -/
theorem past_depth_bound_and_eviction :
    (∀ h S, HistoryInv h → HistoryInv (commitSnapshot h S)) ∧
    (∀ h, HistoryInv h → HistoryInv (undo h)) ∧
    (∀ h, HistoryInv h → HistoryInv (redo h)) ∧
    (∀ h S, h.past.length = 50 → S ≠ h.present →
      (commitSnapshot h S).past = h.past.tail ++ [h.present]) ∧
    (scenario51.past.length = 50 ∧ scenario51.past.head? = some (mkSnap 1) ∧
      scenario51.present = mkSnap 51 ∧ mkSnap 0 ∉ scenario51.past) := by
  refine ⟨?_, ?_, ?_, ?_, ?_⟩
  · intro h S hinv
    unfold commitSnapshot
    split
    · exact hinv
    · have := takeLast50_length_le (h.past ++ [h.present])
      unfold HistoryInv at *
      simpa using this
  · intro h hinv
    unfold undo
    cases hp : h.past.getLast? with
    | none =>
      exact hinv
    | some previous =>
      have hlen : 1 ≤ h.past.length := by
        cases hq : h.past with
        | nil => rw [hq] at hp; simp at hp
        | cons a t => simp [hq]
      unfold HistoryInv at *
      simp only [List.length_dropLast, List.length_cons]
      omega
  · intro h hinv
    unfold redo
    cases hf : h.future with
    | nil => exact hinv
    | cons next rest =>
      unfold HistoryInv at *
      rw [hf] at hinv
      simp only [List.length_append, List.length_cons, List.length_nil] at *
      omega
  · intro h S hlen hne
    unfold commitSnapshot
    rw [if_neg hne]
    simp only
    unfold takeLast50
    rw [List.length_append, hlen]
    simp only [List.length_cons, List.length_nil]
    rw [List.drop_append_of_le_length (by omega), ← List.drop_one]
  · decide

/-- C3 witness: the invariant clauses applied at a concrete history. -/
theorem past_depth_bound_and_eviction_witness :
    HistoryInv (commitSnapshot ⟨[], [wRecA], []⟩ [wRecB]) :=
  past_depth_bound_and_eviction.1 ⟨[], [wRecA], []⟩ [wRecB]
    (by unfold HistoryInv; simp)

/-- C10.  Deleting a passenger removes exactly the records with the given
id: the remaining snapshot is a sublist of the old one (so every survivor
is unchanged in all fields and relative order is preserved), and a record
is in the result iff it was present before and its id differs. -/
theorem delete_exact_frame (h : HistoryState) (i : String) :
    (deletePassport i h).present.Sublist h.present ∧
    (∀ p, p ∈ (deletePassport i h).present ↔ (p ∈ h.present ∧ p.id ≠ i)) := by
  have hpr : (deletePassport i h).present = h.present.filter (fun p => p.id ≠ i) :=
    commitSnapshot_present h _
  rw [hpr]
  constructor
  · exact List.filter_sublist _
  · intro p
    simp [List.mem_filter]

/-- C2 counterexample: the per-file success update of batch ingestion does
not push the prior present onto past nor clear future.  Here the history
has a pending redo snapshot and an in-flight placeholder; the claim would
require past = [present] and future = [] afterwards. -/
theorem ingest_update_bypasses_commit_cex :
    ¬ ((applyExtractSuccess wToday wDetailsA "id1" wH2).past =
         takeLast50 (wH2.past ++ [wH2.present]) ∧
       (applyExtractSuccess wToday wDetailsA "id1" wH2).future = []) := by
  decide

/-- C2 amended: field edits, deletes and clears that change the snapshot
go through the single commit path (prior present pushed onto the trimmed
past, future cleared), but the per-file completion and error updates
inside batch ingestion bypass it, replacing present while leaving past
and future untouched. -/
theorem commit_path_classification (today : CivilDate) :
    (∀ d pid h, BypassStep h (applyExtractSuccess today d pid h)) ∧
    (∀ pid msg h, BypassStep h (applyExtractError pid msg h)) ∧
    (∀ i f v h, (updatePassport today i f v h).present ≠ h.present →
      CommitStep h (updatePassport today i f v h)) ∧
    (∀ i h, (deletePassport i h).present ≠ h.present →
      CommitStep h (deletePassport i h)) ∧
    (∀ h, h.present ≠ [] → CommitStep h (clearManifest h)) := by
  refine ⟨?_, ?_, ?_, ?_, ?_⟩
  · intro d pid h
    exact ⟨rfl, rfl⟩
  · intro pid msg h
    exact ⟨rfl, rfl⟩
  · intro i f v h hch
    apply commitSnapshot_commitStep
    intro heq
    exact hch (by rw [updatePassport, commitSnapshot_present, heq])
  · intro i h hch
    apply commitSnapshot_commitStep
    intro heq
    exact hch (by rw [deletePassport, commitSnapshot_present, heq])
  · intro h hne
    exact commitSnapshot_commitStep h [] (fun heq => hne heq.symm)

/-- C2 amended witness: the clear path commits at a concrete history. -/
theorem commit_path_classification_witness :
    CommitStep ⟨[], [wRecA], []⟩ (clearManifest ⟨[], [wRecA], []⟩) :=
  (commit_path_classification wToday).2.2.2.2 ⟨[], [wRecA], []⟩ (by decide)

/-- Extraction result for the first file of the three-file batch. -/
def batchD1 : Details :=
  ⟨"", "ALICE", "SMITH", "P111", "XX", "FEMALE", "01/01/1990", "", ""⟩

/-- Extraction result for the third file of the three-file batch. -/
def batchD3 : Details :=
  ⟨"", "BOB", "JONES", "P333", "XX", "MALE", "05/05/2000", "", ""⟩

/-- A batch of three files in which only the second extraction fails. -/
def batchFiles : List FileInput :=
  [⟨"f1.jpg", "id1", .ok batchD1⟩,
   ⟨"f2.jpg", "id2", .fail "boom"⟩,
   ⟨"f3.jpg", "id3", .ok batchD3⟩]

/-- The state and processed count after running the three-file batch on an
empty manifest. -/
def batchRes : HistoryState × Nat :=
  processFiles wToday batchFiles ⟨[], [], []⟩ 0

/-- C5.  In a batch of three files where only file 2's extraction fails,
ingestion does not abort: the resulting snapshot has three records, files
1 and 3 end completed, file 2 ends in status error carrying the failure's
message, and processedCount reaches 3. -/
theorem batch_error_isolation :
    batchRes.1.present.map (fun p => (p.fileName, p.status)) =
      [("f1.jpg", .completed), ("f2.jpg", .error), ("f3.jpg", .completed)] ∧
    (batchRes.1.present.getD 1 blankRecord).errorMessage = "boom" ∧
    batchRes.1.present.length = 3 ∧
    batchRes.2 = 3 := by
  decide

/-- C7.  Duplicate detection is symmetric: if the rule, run for candidate
A excluding A's id, matches record B (so B is completed and shares a
normalised passport number or full name with A), then the rule run for
candidate B excluding B's id flags A, provided A is completed and in the
snapshot. -/
theorem duplicate_symmetry (l : List PassportData) (A B : PassportData)
    (hmemA : A ∈ l) (hA : A.status = .completed)
    (hflag : dupMatch A.passportNumber A.firstName A.lastName A.id B = true) :
    checkIsDuplicate B.passportNumber B.firstName B.lastName B.id l = true := by
  simp only [dupMatch, Bool.and_eq_true, Bool.or_eq_true, decide_eq_true_eq]
    at hflag
  obtain ⟨⟨hBid, hBstat⟩, hmatch⟩ := hflag
  have hguard : ¬ (B.passportNumber = "" ∧ (B.firstName = "" ∨ B.lastName = "")) := by
    rcases hmatch with ⟨⟨hApn, hBpn⟩, -⟩ | ⟨⟨⟨⟨⟨hAfn, hAln⟩, hBfn⟩, hBln⟩, -⟩, -⟩
    · exact fun hc => hBpn hc.1
    · rintro ⟨-, hc | hc⟩
      · exact hBfn hc
      · exact hBln hc
  unfold checkIsDuplicate
  rw [if_neg hguard]
  simp only [List.any_eq_true]
  refine ⟨A, hmemA, ?_⟩
  simp only [dupMatch, Bool.and_eq_true, Bool.or_eq_true, decide_eq_true_eq]
  refine ⟨⟨hBid.symm, hA⟩, ?_⟩
  rcases hmatch with ⟨⟨hApn, hBpn⟩, heq⟩ | ⟨⟨⟨⟨⟨hAfn, hAln⟩, hBfn⟩, hBln⟩, hf⟩, hl⟩
  · exact Or.inl ⟨⟨hBpn, hApn⟩, heq.symm⟩
  · exact Or.inr ⟨⟨⟨⟨⟨hBfn, hBln⟩, hAfn⟩, hAln⟩, hf.symm⟩, hl.symm⟩

/-- C7 witness: two completed records matching on passport number after
trimming and upper-casing flag each other. -/
theorem duplicate_symmetry_witness :
    checkIsDuplicate wRecB.passportNumber wRecB.firstName wRecB.lastName
      wRecB.id [wRecC, wRecB] = true :=
  duplicate_symmetry [wRecC, wRecB] wRecC wRecB (by decide) (by decide) (by decide)

lemma age_equiv (today b : CivilDate) :
    (today.year - b.year) -
      (if ((today.month - 1) - (b.month - 1)) < 0 ∨
          (((today.month - 1) - (b.month - 1)) = 0 ∧ today.day < b.day)
       then 1 else 0) = specWholeYearAge today b := by
  unfold specWholeYearAge
  split_ifs with hc1 hc2 <;> omega

lemma deriveAttributes_classify (today : CivilDate) (dob gender : String)
    (pd pm py bday : Int)
    (h3 : (jsSplit dob).length = 3)
    (h0 : jsParseInt ((jsSplit dob).getD 0 "") = some pd)
    (h1 : jsParseInt ((jsSplit dob).getD 1 "") = some pm)
    (h2 : jsParseInt ((jsSplit dob).getD 2 "") = some py)
    (hmk : jsMakeDay py (pm - 1) pd = some bday) :
    (deriveAttributes today dob gender).2 =
      (if specWholeYearAge today (civilFromDays bday) < 2 then PType.INFANT
       else if specWholeYearAge today (civilFromDays bday) < 12 then PType.CHILD
       else PType.ADULT) := by
  have hd : dob ≠ "" := by
    intro he
    rw [he] at h3
    exact absurd h3 (by decide)
  rw [deriveAttributes, if_neg hd]
  simp only [h0, h1, h2, h3, hmk]
  simp only [age_equiv today (civilFromDays bday)]
  split_ifs <;> first | rfl | omega

lemma deriveAttributes_invalid (today : CivilDate) (dob gender : String)
    (pd pm py : Int)
    (h3 : (jsSplit dob).length = 3)
    (h0 : jsParseInt ((jsSplit dob).getD 0 "") = some pd)
    (h1 : jsParseInt ((jsSplit dob).getD 1 "") = some pm)
    (h2 : jsParseInt ((jsSplit dob).getD 2 "") = some py)
    (hmk : jsMakeDay py (pm - 1) pd = none) :
    (deriveAttributes today dob gender).2 = .ADULT := by
  have hd : dob ≠ "" := by
    intro he
    rw [he] at h3
    exact absurd h3 (by decide)
  rw [deriveAttributes, if_neg hd]
  simp only [h0, h1, h2, h3, hmk]
  rfl

/-- C6 counterexample: the birth string "01/01/300000" splits into three
components that all parse (1, 1, 300000), and the whole-year age of
1 January 300000 as of the current date is far below 2, yet the program
returns ADULT: the constructed Date exceeds the ECMAScript time clip, is
invalid, and its NaN age falls through every bracket test — so the claim's
INFANT case fails. -/
theorem derive_overflow_adult_cex :
    (deriveAttributes wToday "01/01/300000" "FEMALE").2 = .ADULT ∧
    (jsSplit "01/01/300000").length = 3 ∧
    jsParseInt ((jsSplit "01/01/300000").getD 0 "") = some 1 ∧
    jsParseInt ((jsSplit "01/01/300000").getD 1 "") = some 1 ∧
    jsParseInt ((jsSplit "01/01/300000").getD 2 "") = some 300000 ∧
    specWholeYearAge wToday ⟨300000, 1, 1⟩ < 2 := by
  decide

/-- C6 amended:  The Derived Attribute Calculator returns { title: "",
ADULT } whenever the birth string does not split into exactly three
'/'-separated components.  Otherwise, when all three components parse
(per JS parseInt) and the constructed Date is valid under the ECMAScript
time clip, the passenger type is INFANT for whole-year age below 2, CHILD
for age at least 2 and below 12 (so age exactly 2 is CHILD, not INFANT),
and ADULT for age at least 12, with age taken as of the current date; and
when the components parse but the Date overflows the clip (an Invalid
Date), the NaN age falls through to ADULT. -/
theorem derive_attributes_spec :
    (∀ (today : CivilDate) (dob gender : String), (jsSplit dob).length ≠ 3 →
      deriveAttributes today dob gender = ("", .ADULT)) ∧
    (∀ (today : CivilDate) (dob gender : String) (pd pm py bday : Int),
      (jsSplit dob).length = 3 →
      jsParseInt ((jsSplit dob).getD 0 "") = some pd →
      jsParseInt ((jsSplit dob).getD 1 "") = some pm →
      jsParseInt ((jsSplit dob).getD 2 "") = some py →
      jsMakeDay py (pm - 1) pd = some bday →
      (specWholeYearAge today (civilFromDays bday) < 2 →
        (deriveAttributes today dob gender).2 = .INFANT) ∧
      (2 ≤ specWholeYearAge today (civilFromDays bday) →
       specWholeYearAge today (civilFromDays bday) < 12 →
        (deriveAttributes today dob gender).2 = .CHILD) ∧
      (12 ≤ specWholeYearAge today (civilFromDays bday) →
        (deriveAttributes today dob gender).2 = .ADULT)) ∧
    (∀ (today : CivilDate) (dob gender : String) (pd pm py : Int),
      (jsSplit dob).length = 3 →
      jsParseInt ((jsSplit dob).getD 0 "") = some pd →
      jsParseInt ((jsSplit dob).getD 1 "") = some pm →
      jsParseInt ((jsSplit dob).getD 2 "") = some py →
      jsMakeDay py (pm - 1) pd = none →
      (deriveAttributes today dob gender).2 = .ADULT) := by
  refine ⟨?_, ?_, ?_⟩
  · intro today dob gender h3
    by_cases hd : dob = ""
    · rw [deriveAttributes, if_pos hd]
    · rw [deriveAttributes, if_neg hd]
      dsimp only
      rw [if_pos h3]
  · intro today dob gender pd pm py bday h3 h0 h1 h2 hmk
    have hcl := deriveAttributes_classify today dob gender pd pm py bday
      h3 h0 h1 h2 hmk
    refine ⟨fun ha => ?_, fun ha hb => ?_, fun ha => ?_⟩ <;>
      rw [hcl] <;> split_ifs <;> first | rfl | omega
  · intro today dob gender pd pm py h3 h0 h1 h2 hmk
    exact deriveAttributes_invalid today dob gender pd pm py h3 h0 h1 h2 hmk

/-- C6 amended witness: an unsplittable birth string defaults to adult
with no title; a birth date giving whole-year age exactly 2 classifies as
CHILD; and a year far beyond the time clip classifies as ADULT. -/
theorem derive_attributes_spec_witness :
    deriveAttributes wToday "abc" "FEMALE" = ("", .ADULT) ∧
    (deriveAttributes wToday "01/01/2023" "MALE").2 = .CHILD ∧
    specWholeYearAge wToday (civilFromDays 19358) = 2 ∧
    (deriveAttributes wToday "01/01/300000" "MALE").2 = .ADULT := by
  refine ⟨derive_attributes_spec.1 wToday "abc" "FEMALE" (by decide), ?_,
    by decide, ?_⟩
  · have h := derive_attributes_spec.2.1 wToday "01/01/2023" "MALE" 1 1 2023 19358
      (by decide) (by decide) (by decide) (by decide) (by decide)
    exact h.2.1 (by decide) (by decide)
  · exact derive_attributes_spec.2.2 wToday "01/01/300000" "MALE" 1 1 300000
      (by decide) (by decide) (by decide) (by decide) (by decide)

lemma setField_id (p : PassportData) (f : Field) (v : String) :
    (setField p f v).id = p.id := by
  cases f <;> rfl

lemma updateStep_id (today : CivilDate) (i : String) (f : Field) (v : String)
    (p : PassportData) : (updateStep today i f v p).id = p.id := by
  unfold updateStep
  split
  · split
    · exact setField_id p f v
    · exact setField_id p f v
  · rfl

lemma updateStep_ne (today : CivilDate) (i : String) (f : Field) (v : String)
    (p : PassportData) (hne : p.id ≠ i) : updateStep today i f v p = p := by
  unfold updateStep
  rw [if_neg hne]

lemma getD_map_lt (w : PassportData → PassportData) (l : List PassportData)
    (j : Nat) (hj : j < l.length) :
    (l.map w).getD j blankRecord = w (l.getD j blankRecord) := by
  induction l generalizing j with
  | nil => simp at hj
  | cons a t ih =>
    cases j with
    | zero => rfl
    | succ k => exact ih k (by simpa using hj)

lemma writeFlag_getD (i : String) (ul : List PassportData) (j : Nat)
    (hj : j < ul.length) :
    ∃ b : Bool, (writeFlag i ul).getD j blankRecord =
      { ul.getD j blankRecord with isDuplicate := b } := by
  unfold writeFlag
  split
  · split
    · rw [getD_map_lt _ _ j hj]
      by_cases hq : (ul.getD j blankRecord).id = i
      · rw [if_pos hq]
        exact ⟨_, rfl⟩
      · rw [if_neg hq]
        exact ⟨(ul.getD j blankRecord).isDuplicate, rfl⟩
    · exact ⟨(ul.getD j blankRecord).isDuplicate, rfl⟩
  · exact ⟨(ul.getD j blankRecord).isDuplicate, rfl⟩

lemma writeFlag_getD_ne (i : String) (ul : List PassportData) (j : Nat)
    (hj : j < ul.length) (hne : (ul.getD j blankRecord).id ≠ i) :
    (writeFlag i ul).getD j blankRecord = ul.getD j blankRecord := by
  unfold writeFlag
  split
  · split
    · rw [getD_map_lt _ _ j hj, if_neg hne]
    · rfl
  · rfl

lemma updateList_getD_ne (today : CivilDate) (i : String) (f : Field) (v : String)
    (l : List PassportData) (j : Nat) (hj : j < l.length)
    (hne : (l.getD j blankRecord).id ≠ i) :
    (updateList today i f v l).getD j blankRecord = l.getD j blankRecord := by
  have hj2 : j < (l.map (updateStep today i f v)).length := by simpa using hj
  have hstep : (l.map (updateStep today i f v)).getD j blankRecord
      = l.getD j blankRecord := by
    rw [getD_map_lt _ _ j hj, updateStep_ne today i f v _ hne]
  unfold updateList
  rw [writeFlag_getD_ne i _ j hj2 (by rw [hstep]; exact hne), hstep]

lemma updateList_getD_firstName (today : CivilDate) (i v : String)
    (l : List PassportData) (j : Nat) (hj : j < l.length)
    (hid : (l.getD j blankRecord).id = i) :
    ((updateList today i .firstName v l).getD j blankRecord).firstName = v := by
  have hj2 : j < (l.map (updateStep today i .firstName v)).length := by simpa using hj
  obtain ⟨b, hb⟩ := writeFlag_getD i _ j hj2
  unfold updateList
  rw [hb, getD_map_lt _ _ j hj]
  show (updateStep today i .firstName v (l.getD j blankRecord)).firstName = v
  unfold updateStep
  rw [if_pos hid, if_neg (by decide)]
  rfl

lemma updateList_getD_lastName (today : CivilDate) (i v : String)
    (l : List PassportData) (j : Nat) (hj : j < l.length)
    (hid : (l.getD j blankRecord).id = i) :
    ((updateList today i .lastName v l).getD j blankRecord).lastName = v := by
  have hj2 : j < (l.map (updateStep today i .lastName v)).length := by simpa using hj
  obtain ⟨b, hb⟩ := writeFlag_getD i _ j hj2
  unfold updateList
  rw [hb, getD_map_lt _ _ j hj]
  show (updateStep today i .lastName v (l.getD j blankRecord)).lastName = v
  unfold updateStep
  rw [if_pos hid, if_neg (by decide)]
  rfl

lemma checkIsDuplicate_flag_map (pn fn ln cid i : String) (dv : Bool)
    (ul : List PassportData) :
    checkIsDuplicate pn fn ln cid
      (ul.map (fun p => if p.id = i then { p with isDuplicate := dv } else p)) =
    checkIsDuplicate pn fn ln cid ul := by
  unfold checkIsDuplicate
  split
  · rfl
  · rw [List.any_map]
    have hfun : (fun p => dupMatch pn fn ln cid p) ∘
        (fun p => if p.id = i then { p with isDuplicate := dv } else p) =
        fun p => dupMatch pn fn ln cid p := by
      funext p
      by_cases hp : p.id = i
      · simp only [Function.comp, if_pos hp]
        rfl
      · simp only [Function.comp, if_neg hp]
    rw [hfun]

lemma target_flag_correct (today : CivilDate) (i : String) (f : Field) (v : String)
    (l : List PassportData) (hnd : (l.map PassportData.id).Nodup) :
    ∀ p ∈ updateList today i f v l, p.id = i → p.status = .completed →
      p.isDuplicate = checkIsDuplicate p.passportNumber p.firstName p.lastName i
        (updateList today i f v l) := by
  intro p hp hpid hpstat
  have hcomp : PassportData.id ∘ updateStep today i f v = PassportData.id :=
    funext fun q => updateStep_id today i f v q
  have hndul : ((l.map (updateStep today i f v)).map PassportData.id).Nodup := by
    rw [List.map_map, hcomp]
    exact hnd
  unfold updateList at hp ⊢
  cases hfind : (l.map (updateStep today i f v)).find? (fun q => q.id = i) with
  | none =>
    simp only [writeFlag, hfind] at hp
    have := List.find?_eq_none.mp hfind p hp
    simp only [decide_eq_true_eq] at this
    exact absurd hpid this
  | some t =>
    have ht : t.id = i := by
      have := List.find?_some hfind
      simpa using this
    have htmem := List.mem_of_find?_eq_some hfind
    by_cases hts : t.status = .completed
    · simp only [writeFlag, hfind, if_pos hts] at hp ⊢
      obtain ⟨q, hq, hw⟩ := List.mem_map.mp hp
      by_cases hqi : q.id = i
      · rw [if_pos hqi] at hw
        have hqt : q = t :=
          List.inj_on_of_nodup_map hndul hq htmem (by rw [hqi, ht])
        subst hqt
        rw [← hw, checkIsDuplicate_flag_map]
      · rw [if_neg hqi] at hw
        rw [← hw] at hpid
        exact absurd hpid hqi
    · simp only [writeFlag, hfind, if_neg hts] at hp ⊢
      have hpt : p = t :=
        List.inj_on_of_nodup_map hndul hp htmem (by rw [hpid, ht])
      rw [hpt] at hpstat
      exact absurd hpstat hts

/-- A history holding two completed records with distinct passport
numbers and names, for the duplicate-flag counterexample. -/
def wH4 : HistoryState := ⟨[], [wRecA, wRecB], []⟩

/-- C4 counterexample: after editing record A's passport number to equal
record B's, the duplicate rule evaluated on the post-edit snapshot flags
B, but B's stored isDuplicate flag is left stale (false) — so not every
record's flag equals the rule. -/
theorem sibling_duplicate_flag_stale_cex :
    ¬ (∀ p ∈ (updatePassport wToday "A" .passportNumber "P2" wH4).present,
        p.isDuplicate = checkIsDuplicate p.passportNumber p.firstName p.lastName
          p.id (updatePassport wToday "A" .passportNumber "P2" wH4).present) := by
  decide

/-- C4 amended: a field edit leaves every sibling record (different id)
completely unchanged — stale duplicate flags included — and recomputes
only the edited record's flag, which then equals the duplicate rule
evaluated against the post-edit snapshot whenever that record is
completed (stated for snapshots with distinct ids). -/
theorem edit_duplicate_flag_recompute (today : CivilDate) (i : String)
    (f : Field) (v : String) (h : HistoryState) :
    (∀ j, j < h.present.length → (h.present.getD j blankRecord).id ≠ i →
      (updatePassport today i f v h).present.getD j blankRecord =
        h.present.getD j blankRecord) ∧
    ((h.present.map PassportData.id).Nodup →
      ∀ p ∈ (updatePassport today i f v h).present, p.id = i →
        p.status = .completed →
        p.isDuplicate = checkIsDuplicate p.passportNumber p.firstName p.lastName i
          (updatePassport today i f v h).present) := by
  have hpr : (updatePassport today i f v h).present = updateList today i f v h.present :=
    commitSnapshot_present h _
  constructor
  · intro j hj hne
    rw [hpr]
    exact updateList_getD_ne today i f v h.present j hj hne
  · intro hnd p hp hpid hpstat
    rw [hpr] at hp ⊢
    exact target_flag_correct today i f v h.present hnd p hp hpid hpstat

/-- C4 amended witness: the sibling record B survives an edit of A
byte-for-byte. -/
theorem edit_duplicate_flag_recompute_witness :
    (updatePassport wToday "A" .passportNumber "P2" wH4).present.getD 1 blankRecord =
      wH4.present.getD 1 blankRecord :=
  (edit_duplicate_flag_recompute wToday "A" .passportNumber "P2" wH4).1 1
    (by decide) (by decide)

/-- A one-record history for name-edit scenarios. -/
def wH9 : HistoryState := ⟨[], [wRecA], []⟩

/-- C9 counterexample: an edit through the detail editor stores the raw
DOM value, which here is not equal to its own upper-cased form. -/
theorem editor_edit_not_uppercased_cex :
    ((editorEditField wToday "A" .firstName "john" wH9).present.getD 0
        blankRecord).firstName = "john" ∧
    jsToUpper "john" ≠ "john" := by
  decide

/-- C9 amended: edits to firstName or lastName through the desktop table
store the upper-cased input, while edits through the detail editor store
the raw input unchanged. -/
theorem name_edit_storage (today : CivilDate) (i v : String) (h : HistoryState) :
    ∀ j, j < h.present.length → (h.present.getD j blankRecord).id = i →
      (((tableEditFirstName today i v h).present.getD j blankRecord).firstName =
          jsToUpper v ∧
       ((tableEditLastName today i v h).present.getD j blankRecord).lastName =
          jsToUpper v ∧
       ((editorEditField today i .firstName v h).present.getD j
          blankRecord).firstName = v ∧
       ((editorEditField today i .lastName v h).present.getD j
          blankRecord).lastName = v) := by
  intro j hj hid
  refine ⟨?_, ?_, ?_, ?_⟩
  · rw [tableEditFirstName, updatePassport, commitSnapshot_present]
    exact updateList_getD_firstName today i (jsToUpper v) h.present j hj hid
  · rw [tableEditLastName, updatePassport, commitSnapshot_present]
    exact updateList_getD_lastName today i (jsToUpper v) h.present j hj hid
  · rw [editorEditField, updatePassport, commitSnapshot_present]
    exact updateList_getD_firstName today i v h.present j hj hid
  · rw [editorEditField, updatePassport, commitSnapshot_present]
    exact updateList_getD_lastName today i v h.present j hj hid

/-- C9 amended witness at a concrete record and value. -/
theorem name_edit_storage_witness :
    ((tableEditFirstName wToday "A" "john" wH9).present.getD 0
        blankRecord).firstName = jsToUpper "john" ∧
    ((tableEditLastName wToday "A" "john" wH9).present.getD 0
        blankRecord).lastName = jsToUpper "john" ∧
    ((editorEditField wToday "A" .firstName "john" wH9).present.getD 0
        blankRecord).firstName = "john" ∧
    ((editorEditField wToday "A" .lastName "john" wH9).present.getD 0
        blankRecord).lastName = "john" :=
  name_edit_storage wToday "A" "john" wH9 0 (by decide) (by decide)

/-- The filter criteria used by the filter scenarios: expiry date between
2025-01-01 and 2025-12-31. -/
def wFilterYear : FilterState := ⟨.expiryDate, some ⟨2025, 1, 1⟩, some ⟨2025, 12, 31⟩⟩

/-- A completed record whose expiry date has three components, none of
which parses as a number. -/
def wRecBadDate : PassportData :=
  { blankRecord with id := "X", expiryDate := "a/b/c", status := .completed }

/-- A record whose expiry date equals the lower filter boundary. -/
def wRecStartBound : PassportData :=
  { blankRecord with id := "Y", expiryDate := "01/01/2025" }

/-- A record whose expiry date equals the upper filter boundary. -/
def wRecEndBound : PassportData :=
  { blankRecord with id := "Z", expiryDate := "31/12/2025" }

/-- A record whose expiry date lies beyond the ECMAScript time clip. -/
def wRecFarDate : PassportData :=
  { blankRecord with id := "W", expiryDate := "01/01/300000" }

/-- C8 counterexample: a record whose filter-field value has exactly three
'/'-components none of which parses as a number is retained by an active
date filter (the NaN date fails neither bound check), although the claim
requires every record without a parseable date to be excluded. -/
theorem filter_unparseable_retained_cex :
    wRecBadDate ∈ applyFilter wFilterYear [wRecBadDate] ∧
    jsParseInt ((jsSplit (getDateField wRecBadDate wFilterYear.field)).getD 0 "")
      = none := by
  decide

/-- C8 amended: with a filter active, records with an absent value or one
that does not split into exactly three components are excluded; a value
whose three components all parse (per JS parseInt) into a Date valid
under the time clip is retained iff that date is at least the start bound
and at most the end-of-day end bound, each when set — so records exactly
on either boundary are included; but a three-component value with an
unparseable component, or one whose date overflows the clip, yields an
invalid date whose NaN comparisons fail no bound check, so it is
retained. -/
theorem filter_range_semantics :
    (∀ (fl : FilterState) (p : PassportData), getDateField p fl.field = "" →
      keepRecord fl p = false) ∧
    (∀ (fl : FilterState) (p : PassportData), getDateField p fl.field ≠ "" →
      (jsSplit (getDateField p fl.field)).length ≠ 3 → keepRecord fl p = false) ∧
    (∀ (fl : FilterState) (p : PassportData) (pd pm py bday : Int),
      getDateField p fl.field ≠ "" →
      (jsSplit (getDateField p fl.field)).length = 3 →
      jsParseInt ((jsSplit (getDateField p fl.field)).getD 0 "") = some pd →
      jsParseInt ((jsSplit (getDateField p fl.field)).getD 1 "") = some pm →
      jsParseInt ((jsSplit (getDateField p fl.field)).getD 2 "") = some py →
      jsMakeDay py (pm - 1) pd = some bday →
      (keepRecord fl p = true ↔
        ((∀ s, fl.startDate = some s → civilMillis s ≤ bday * 86400000) ∧
         (∀ e, fl.endDate = some e →
            bday * 86400000 ≤ civilMillis e + 86399000)))) ∧
    (∀ (fl : FilterState) (p : PassportData),
      getDateField p fl.field ≠ "" →
      (jsSplit (getDateField p fl.field)).length = 3 →
      (jsParseInt ((jsSplit (getDateField p fl.field)).getD 0 "") = none ∨
       jsParseInt ((jsSplit (getDateField p fl.field)).getD 1 "") = none ∨
       jsParseInt ((jsSplit (getDateField p fl.field)).getD 2 "") = none) →
      keepRecord fl p = true) ∧
    (∀ (fl : FilterState) (p : PassportData) (pd pm py : Int),
      getDateField p fl.field ≠ "" →
      (jsSplit (getDateField p fl.field)).length = 3 →
      jsParseInt ((jsSplit (getDateField p fl.field)).getD 0 "") = some pd →
      jsParseInt ((jsSplit (getDateField p fl.field)).getD 1 "") = some pm →
      jsParseInt ((jsSplit (getDateField p fl.field)).getD 2 "") = some py →
      jsMakeDay py (pm - 1) pd = none →
      keepRecord fl p = true) ∧
    (∀ (fl : FilterState) (l : List PassportData) (q : PassportData),
      fl.startDate.isSome ∨ fl.endDate.isSome →
      (q ∈ applyFilter fl l ↔ q ∈ l ∧ keepRecord fl q = true)) := by
  refine ⟨?_, ?_, ?_, ?_, ?_, ?_⟩
  · intro fl p ha
    rw [keepRecord]
    dsimp only
    rw [if_pos ha]
  · intro fl p hne h3
    rw [keepRecord]
    dsimp only
    rw [if_neg hne, if_pos h3]
  · intro fl p pd pm py bday hne h3 h0 h1 h2 hmk
    rw [keepRecord]
    dsimp only
    rw [if_neg hne, if_neg (fun hc => hc h3), h0, h1, h2]
    dsimp only
    rw [hmk]
    dsimp only [Option.map]
    rcases hs : fl.startDate with _ | s <;> rcases he : fl.endDate with _ | e <;>
      simp only [hs, he] <;> split_ifs <;> simp_all
  · intro fl p hne h3 hnone
    rw [keepRecord]
    dsimp only
    rw [if_neg hne, if_neg (fun hc => hc h3)]
    rcases h0 : jsParseInt ((jsSplit (getDateField p fl.field)).getD 0 "")
        with _ | pd <;>
      rcases h1 : jsParseInt ((jsSplit (getDateField p fl.field)).getD 1 "")
        with _ | pm <;>
      rcases h2 : jsParseInt ((jsSplit (getDateField p fl.field)).getD 2 "")
        with _ | py <;>
      simp only [h0, h1, h2] at hnone ⊢ <;> first | rfl | simp at hnone
  · intro fl p pd pm py hne h3 h0 h1 h2 hmk
    rw [keepRecord]
    dsimp only
    rw [if_neg hne, if_neg (fun hc => hc h3), h0, h1, h2]
    dsimp only
    rw [hmk]
    rfl
  · intro fl l q hact
    rw [applyFilter, if_pos hact]
    exact List.mem_filter

/-- C8 amended witness: both boundary records are retained, and a record
whose date overflows the time clip is retained despite the active filter. -/
theorem filter_range_semantics_witness :
    keepRecord wFilterYear wRecStartBound = true ∧
    keepRecord wFilterYear wRecEndBound = true ∧
    keepRecord wFilterYear wRecFarDate = true := by
  refine ⟨?_, ?_, ?_⟩
  · refine (filter_range_semantics.2.2.1 wFilterYear wRecStartBound 1 1 2025 20089
      (by decide) (by decide) (by decide) (by decide) (by decide)
      (by decide)).mpr ⟨?_, ?_⟩
    · intro s hs
      simp only [wFilterYear, Option.some.injEq] at hs
      subst hs
      decide
    · intro e he
      simp only [wFilterYear, Option.some.injEq] at he
      subst he
      decide
  · refine (filter_range_semantics.2.2.1 wFilterYear wRecEndBound 31 12 2025 20453
      (by decide) (by decide) (by decide) (by decide) (by decide)
      (by decide)).mpr ⟨?_, ?_⟩
    · intro s hs
      simp only [wFilterYear, Option.some.injEq] at hs
      subst hs
      decide
    · intro e he
      simp only [wFilterYear, Option.some.injEq] at he
      subst he
      decide
  · exact filter_range_semantics.2.2.2.2.1 wFilterYear wRecFarDate 1 1 300000
      (by decide) (by decide) (by decide) (by decide) (by decide) (by decide)

end Namelist
